import Mathlib

/-!
Shallow embedding of the R/Python browser playground's session-state and
result-ingestion pipeline (the `usePyodide` and `useWebR` hooks, the `App`
component's editor/history state, and the table-viewer sorting logic), with
theorems settling the frozen claims about it.

Conventions of the embedding:
* JavaScript runtime values flowing out of the interpreters are modelled by
  `JsVal`; `jsNull` stands for both `null` and `undefined` (the code under
  scrutiny treats them identically everywhere it inspects them).
* JavaScript numbers are modelled by `Int` (the comparator and counter logic
  translated here is arithmetic-shape-identical for any ordered numeric type).
* The interpreters (Pyodide, WebR) are external services: each call into them
  is modelled by an explicit description of its outcome (`PyExec`, `RExec`,
  query results), and the adapter code that consumes those outcomes is
  translated from the source.
* React `useState` cells of one hook are collected into a state structure;
  a handler is a function from state (plus interpreter outcome) to state.
-/

/-- A JavaScript value as seen by the adapter code.  `jsNull` models both
`null` and `undefined`.  `jsNode` models an object of the WebR `.toJs()`
shape `{ type, names, values }`; `names` is `none` when the `names` property
is not an array (e.g. `null`). -/
inductive JsVal where
  | jsNull
  | jsBool (b : Bool)
  | jsNum (n : Int)
  | jsStr (s : String)
  | jsNode (type_ : String) (names : Option (List JsVal)) (values : List JsVal)

/-- JavaScript `String(v)` coercion (for the values that occur here). -/
def jsString : JsVal → String
  | .jsNull => "null"
  | .jsBool b => if b then "true" else "false"
  | .jsNum n => toString n
  | .jsStr s => s
  | .jsNode _ _ _ => "[object Object]"

/-- JavaScript `array.join(' ')`: elements are `String(·)`-coerced except
`null`/`undefined`, which become the empty string. -/
def jsJoinSp (l : List JsVal) : String :=
  String.intercalate " " (l.map fun v => match v with | .jsNull => "" | w => jsString w)

/-- Embeds `array.indexOf(field)` on an array of runtime values, looking for the
string `field` (strict equality); `none` for `-1`. -/
def jsFindStrIdx (l : List JsVal) (field : String) : Option Nat :=
  l.findIdx? fun v => match v with | .jsStr t => t == field | _ => false

/-- Embeds `values[names.indexOf(field)]`: `undefined` (here `none`) when the field
is absent or the index is out of range of `values`. -/
def jsGetField (values : List JsVal) (names : List JsVal) (field : String) : Option JsVal :=
  match jsFindStrIdx names field with
  | some i => values[i]?
  | none => none

/-- Embeds `ConsoleOutput.type` from `types.ts`. -/
inductive ConsoleKind where
  | input
  | stdout
  | stderr
  | system
deriving DecidableEq, Repr

/-- One console line (`ConsoleOutput` in `types.ts`). -/
structure ConsoleOutput where
  type_ : ConsoleKind
  message : String
deriving DecidableEq, Repr

/-- Embeds `PlotData` from `types.ts`. -/
structure PlotData where
  id : String
  dataUrl : String
deriving DecidableEq, Repr

/-- One displayed table row: a JavaScript record mapping column name to cell
value, modelled as the assignment list that built it. -/
def Row := List (String × JsVal)

/-- Embeds `row[k]`: property read on the record.  Later assignments overwrite
earlier ones, so the last matching assignment wins; a missing key is
`undefined` (`jsNull`). -/
def rowGet (r : Row) (k : String) : JsVal :=
  match (r.filter fun p => p.1 == k).getLast? with
  | some p => p.2
  | none => .jsNull

/-- Embeds `TableData` from `types.ts`. -/
structure TableData where
  name : String
  data : List Row
  columns : List String

/-! ## Python backend (`usePyodide`) -/

/-- What the Python-side reflection snippet can observe about one global
binding: its type name, the result of `repr(value)` (`none` when `repr`
raises), and the two `isinstance` flags it computes. -/
structure PyValue where
  typeName : String
  reprVal : Option String
  isDataFrame : Bool
  isFigure : Bool

/-- Embeds `PythonEnvObject` from `types.ts` (plus the `is_figure` flag of the
hook's reflection snippet). -/
structure PyEnvObject where
  type_ : String
  reprStr : String
  is_dataframe : Bool
  is_figure : Bool

/-- The literal `_vars_to_ignore` set of the reflection snippet (before the
builtins are unioned in). -/
def pyVarsToIgnore : List String :=
  ["__name__", "__doc__", "__package__", "__loader__", "__spec__", "__annotations__",
   "__builtins__", "_vars", "_builtins", "_scope", "_vars_to_ignore", "json", "pd",
   "sys", "pyodide", "plt", "Figure"]

/-- Embeds `name.startswith('_')` for the one-character prefix `_`: the first
character is an underscore. -/
def startsWithUnderscore (s : String) : Bool := s.data.head? == some '_'

/-- Embeds `if len(repr_val) > 100: repr_val = repr_val[:100] + '...'` — the slice
`repr_val[:100]` is the first 100 characters. -/
def pyTruncateRepr (r : String) : String :=
  if r.length > 100 then String.mk (r.data.take 100) ++ "..." else r

/-- Embeds `repr(value)`, falling back to `f"<{type(value).__name__}>"` when `repr`
raises. -/
def pyReprOf (v : PyValue) : String :=
  match v.reprVal with
  | some r => r
  | none => "<" ++ v.typeName ++ ">"

/-- The reflection snippet of `updateEnvironment`: walk `globals().items()`,
skip ignored/underscore/module/builtin names, and build the `_vars` entries.
(The Python dict `_vars` has unique keys because `globals()` does; the list
here keeps the iteration order.) -/
def buildPyEnv (builtins : List String) (scope : List (String × PyValue)) :
    List (String × PyEnvObject) :=
  scope.filterMap fun p =>
    if p.1 ∈ pyVarsToIgnore ∨ p.1 ∈ builtins ∨ startsWithUnderscore p.1 ∨ p.2.typeName = "module"
    then none
    else some (p.1, ⟨p.2.typeName, pyTruncateRepr (pyReprOf p.2), p.2.isDataFrame, p.2.isFigure⟩)

/-- State cells of the `usePyodide` hook (the `isEnvLoading` UI flag is
omitted: nothing here reads it). -/
structure PyState where
  isLoading : Bool
  consoleOutput : List ConsoleOutput
  environment : List (String × PyEnvObject)
  tableData : Option TableData
  plots : List PlotData
  plotIdCounter : Nat

/-- Interpreter-side state the adapter interacts with: the set of currently
open matplotlib figures (each identified by its would-be PNG base64 payload)
and the builtin-name set used by the reflection snippet. -/
structure PyInterp where
  figs : List String
  builtins : List String

/-- Outcome description of one `pyodide.runPythonAsync(code)` call on user
code: whether it raised, the stdout/stderr batches the `setStdout`/`setStderr`
handlers received while it ran (`true` marks a stderr batch), its net effect
on the open-figure set, and the contents of `globals()` afterwards (which the
unconditional `updateEnvironment` in the `finally` block will reflect). -/
structure PyExec where
  raises : Bool
  emitted : List (Bool × String)
  figEffect : List String → List String
  globalsAfter : List (String × PyValue)

/-- The `batched` stdout/stderr handlers: each non-empty batch becomes one
console line of the corresponding kind (`if(msg) setConsoleOutput(...)`). -/
def streamLines (l : List (Bool × String)) : List ConsoleOutput :=
  l.filterMap fun m =>
    if m.2 = "" then none
    else some ⟨if m.1 then .stderr else .stdout, m.2⟩

/-- Embeds `newPlots.map(p => ({ id: plot-<counter++>, dataUrl: data:image/png;base64,<p> }))`. -/
def mkPlotObjects (counter : Nat) (figs : List String) : List PlotData :=
  figs.enum.map fun p =>
    ⟨"plot-" ++ toString (counter + p.1), "data:image/png;base64," ++ p.2⟩

/-- Embeds `runCode` of `usePyodide` (the variant taking `options.isInteractive`).
`ready` models `pyodide` being non-null.  Steps, as in the source: guard;
append the `input` echo line; for non-interactive runs `plt.close('all')`
first; run the user code (console batches arrive during it); on success
enumerate `plt.get_fignums()`, render each open figure (figures are NOT
closed by the capture snippet), and append (script) or replace (interactive)
the plot list; on error skip plot capture entirely; in `finally`, refresh the
environment snapshot. -/
def pyRunCode (ready : Bool) (s : PyState) (it : PyInterp) (code : String)
    (isInteractive : Bool) (ex : PyExec) : PyState × PyInterp :=
  if ¬ ready ∨ s.isLoading then (s, it)
  else
    let console1 := s.consoleOutput ++ [⟨.input, code⟩]
    let figs0 := if isInteractive then it.figs else []
    let figs1 := ex.figEffect figs0
    let console2 := console1 ++ streamLines ex.emitted
    let it1 : PyInterp := { it with figs := figs1 }
    let env1 := buildPyEnv it.builtins ex.globalsAfter
    if ex.raises then
      ({ s with consoleOutput := console2, environment := env1 }, it1)
    else
      let plotObjects := mkPlotObjects s.plotIdCounter figs1
      let plots1 :=
        if isInteractive then plotObjects
        else if plotObjects.isEmpty then s.plots else s.plots ++ plotObjects
      ({ s with consoleOutput := console2, environment := env1,
                plots := plots1, plotIdCounter := s.plotIdCounter + figs1.length }, it1)

/-- The `^[a-zA-Z0-9_]+$` test of the Python viewer entry points. -/
def validPyName (s : String) : Bool :=
  (s != "") && s.data.all fun c => c.isAlpha || c.isDigit || c == '_'

/-- The pandas `to_json(orient='split')` payload, already JSON-parsed. -/
structure PandasSplit where
  columns : List String
  index : List JsVal
  data : List (List JsVal)

/-- The Python snippet `viewObjectByName` interpolates the (pattern-checked)
name into; recorded so theorems can speak about which code was sent to the
interpreter. -/
def pyViewQueryCode (name : String) : String :=
  "\nimport json\nif \"" ++ name ++ "\" in globals() and hasattr(globals()[\"" ++ name ++
    "\"], 'to_json'):\n    globals()[\"" ++ name ++
    "\"].to_json(orient='split')\nelse:\n    None\n"

/-- Row construction of the Python viewer: `{'#': parsed.index[i]}` then one
assignment per column from `parsed.data[i]` (missing positions are
`undefined`). -/
def pandasRow (columns : List String) (idxVal : JsVal) (cells : List JsVal) : Row :=
  ("#", idxVal) :: columns.enum.map fun c => (c.2, cells.getD c.1 .jsNull)

/-- Embeds `viewObjectByName` of `usePyodide`.  `q` is the interpreter's answer to
the membership/`to_json` query (`none` when the snippet evaluated to `None`,
i.e. the binding is missing or not tabular).  Also returns the list of code
strings sent to the interpreter by this call. -/
def pyViewObjectByName (ready : Bool) (s : PyState) (name : String)
    (q : Option PandasSplit) : PyState × List String :=
  if ¬ ready ∨ ¬ validPyName name then
    ({ s with consoleOutput :=
        s.consoleOutput ++ [⟨.stderr, "Error: Invalid object name for viewer: " ++ name⟩] }, [])
  else
    match q with
    | some parsed =>
      let rows := parsed.data.enum.map fun p =>
        pandasRow parsed.columns (parsed.index.getD p.1 .jsNull) p.2
      ({ s with tableData := some ⟨name, rows, "#" :: parsed.columns⟩ },
       [pyViewQueryCode name])
    | none =>
      ({ s with consoleOutput := s.consoleOutput ++
          [⟨.stderr, "Could not view object '" ++ name ++ "': Object '" ++ name ++
            "' is not a DataFrame or does not exist."⟩] },
       [pyViewQueryCode name])

/-- Embeds `viewPlotByName` of `usePyodide`; `b64` is the render of the named
figure, `none` when the binding is missing or not a `Figure`. -/
def pyViewPlotByName (ready : Bool) (s : PyState) (name : String)
    (b64 : Option String) : PyState :=
  if ¬ ready ∨ ¬ validPyName name then
    { s with consoleOutput :=
        s.consoleOutput ++ [⟨.stderr, "Error: Invalid object name for viewer: " ++ name⟩] }
  else
    match b64 with
    | some b =>
      { s with plots := s.plots ++ [⟨"plot-" ++ toString s.plotIdCounter,
                                     "data:image/png;base64," ++ b⟩],
               plotIdCounter := s.plotIdCounter + 1 }
    | none =>
      { s with consoleOutput := s.consoleOutput ++
          [⟨.stderr, "Could not view plot object '" ++ name ++ "': Object '" ++ name ++
            "' is not a Figure or does not exist."⟩] }

/-- Embeds `clearPlots` of `usePyodide`. -/
def pyClearPlots (s : PyState) : PyState := { s with plots := [] }

/-- Embeds `clearTable` of `usePyodide`. -/
def pyClearTable (s : PyState) : PyState := { s with tableData := none }

/-- Embeds `clearConsole` of `usePyodide`. -/
def pyClearConsole (s : PyState) : PyState := { s with consoleOutput := [] }

/-! ## R backend (`useWebR`) -/

/-- Embeds `EnvObject` from `types.ts`.  The source casts untyped `.toJs()` output
into this shape (`objectType.values[0] as ...`, `class_.values as string[]`),
so the fields here keep the raw runtime values those casts store:
`objectType` is `values[0]` of the `objectType` node (`none` when that array
is empty, i.e. `undefined`), `class_` is the raw `values` array of the
`class` node, and `str` is `values.join(' ')` of the `str` node. -/
structure EnvObject where
  objectType : Option JsVal
  class_ : List JsVal
  str : String

/-- The `{ data, columns }` record produced by `rObjectToTable`. -/
structure RTable where
  data : List Row
  columns : List String

/-- Row loop of `rObjectToTable`: for each `i < nRows` and each column `j`,
cell `values[j].values[i]` when the column name is truthy, `values[j]` has a
`values` array and `i` is in range, else `null`. -/
def rTableRows (columns : List String) (values : List JsVal) (nRows : Nat) : List Row :=
  (List.range nRows).map fun i =>
    columns.enum.map fun cj =>
      (cj.2,
        if cj.2 ≠ "" then
          match values.getD cj.1 .jsNull with
          | .jsNode _ _ vs => if i < vs.length then vs.getD i .jsNull else .jsNull
          | _ => .jsNull
        else .jsNull)

/-- Embeds `rObjectToTable`: convert a WebR `.toJs()` data-frame-like object into
`{ data, columns }`; `none` when the object is not in the expected R list
format.  The `names as string[]` cast stores the raw name values, which are
then used as record keys (and so `String(·)`-coerced); `jsString` performs
that coercion. -/
def rObjectToTable (j : JsVal) : Option RTable :=
  match j with
  | .jsNode t (some names) values =>
    if t = "list" then
      let columns := names.map jsString
      if columns.length = 0 ∨ values.length = 0 then some ⟨[], columns⟩
      else
        let nRows := match values.head? with
          | some (.jsNode _ _ vs) => vs.length
          | _ => 0
        if nRows = 0 then some ⟨[], columns⟩
        else some ⟨rTableRows columns values nRows, columns⟩
    else none
  | _ => none

/-- The `env` section parse of `updateEnvironment`: for each position `i` of
the outer list, accept the entry only when the name is a non-empty string and
the details object is a `list` node with `names`/`values` arrays, and its
`objectType`/`class`/`str` fields are all objects with a `values` array.
(`ls()` yields unique names, so the object-key overwrite semantics of
`newEnv[name] = ...` and this list agree.) -/
def rParseEnvEntries (ns : List JsVal) (vs : List JsVal) : List (String × EnvObject) :=
  (List.range ns.length).filterMap fun i =>
    match ns.getD i .jsNull, vs.getD i .jsNull with
    | .jsStr name, .jsNode "list" (some dns) dvs =>
      if name = "" then none
      else
        match jsGetField dvs dns "objectType", jsGetField dvs dns "class",
              jsGetField dvs dns "str" with
        | some (.jsNode _ _ ovs), some (.jsNode _ _ cvs), some (.jsNode _ _ svs) =>
          some (name, ⟨ovs.head?, cvs, jsJoinSp svs⟩)
        | _, _, _ => none
    | _, _ => none

/-- Embeds `newEnv` built from the `env` payload (the empty environment when the
payload is not a well-formed `list` node, as in the source where the guard
leaves `newEnv = {}`). -/
def rParseEnv (envJs : JsVal) : List (String × EnvObject) :=
  match envJs with
  | .jsNode "list" (some ns) vs => rParseEnvEntries ns vs
  | _ => []

/-- The `packages` section parse: entries with a non-empty string name and a
`values` array whose first element is a string. -/
def rParsePkgs (pns : List JsVal) (pvs : List JsVal) : List (String × String) :=
  (List.range pns.length).filterMap fun i =>
    match pns.getD i .jsNull, pvs.getD i .jsNull with
    | .jsStr name, .jsNode _ _ vvs =>
      if name = "" then none
      else
        match vvs.head? with
        | some (.jsStr ver) => some (name, ver)
        | _ => none
    | _, _ => none

/-- The `dataframes` section parse: every position whose value converts via
`rObjectToTable` and whose name is a string (no non-empty check here, as in
the source). -/
def rParseDfs (dfsJs : JsVal) : List (String × RTable) :=
  match dfsJs with
  | .jsNode "list" (some ns) vs =>
    (List.range ns.length).filterMap fun i =>
      match ns.getD i .jsNull, rObjectToTable (vs.getD i .jsNull) with
      | .jsStr name, some table => some (name, table)
      | _, _ => none
  | _ => []

/-- State cells of the `useWebR` hook. -/
structure RState where
  isLoading : Bool
  consoleOutput : List ConsoleOutput
  environment : List (String × EnvObject)
  tableData : Option TableData
  plots : List PlotData
  plotIdCounter : Nat
  packages : List (String × String)
  viewableDataFrames : List (String × RTable)

/-- The `env` section of `updateEnvironment`: when the `env` name is present
the environment snapshot is always replaced (possibly with `{}` when the
payload is malformed, as `rParseEnv` yields). -/
def rEnvSection (s : RState) (names : List JsVal) (values : List JsVal) : RState :=
  match jsFindStrIdx names "env" with
  | some i => { s with environment := rParseEnv (values.getD i .jsNull) }
  | none => s

/-- The `packages` section of `updateEnvironment`: the package map is
replaced only when the payload is a well-formed `list` node. -/
def rPkgSection (s : RState) (names : List JsVal) (values : List JsVal) : RState :=
  match jsFindStrIdx names "packages" with
  | some i =>
    match values.getD i .jsNull with
    | .jsNode "list" (some pns) pvs => { s with packages := rParsePkgs pns pvs }
    | _ => s
  | none => s

/-- The `dataframes` section of `updateEnvironment`: when the `dataframes`
name is present the viewable-data-frame map is always replaced. -/
def rDfsSection (s : RState) (names : List JsVal) (values : List JsVal) : RState :=
  match jsFindStrIdx names "dataframes" with
  | some i => { s with viewableDataFrames := rParseDfs (values.getD i .jsNull) }
  | none => s

/-- Body of `updateEnvironment` once `result.toJs()` produced `resultJs`:
guard the overall `{ env, packages, dataframes }` list shape, then apply the
three sections in order. -/
def rApplyEnvResult (s : RState) (resultJs : JsVal) : RState :=
  match resultJs with
  | .jsNode t (some names) values =>
    if t = "list" then rDfsSection (rPkgSection (rEnvSection s names values) names values) names values
    else s
  | _ => s

/-- Embeds `updateEnvironment` of `useWebR`: `result` is `none` when the
`evalR`/`toJs` round trip threw (the catch only logs), otherwise the parsed
reflection payload is applied. -/
def rUpdateEnvironment (s : RState) (result : Option JsVal) : RState :=
  match result with
  | none => s
  | some resultJs => rApplyEnvResult s resultJs

/-- Outcome description of one `shelter.captureR` round trip: `throws` is
the thrown message when the call raised (then no output or images are
consumed), `output` is the captured stream messages (`true` marks stderr),
`images` the captured plot rasters (as their `canvas.toDataURL` payloads),
and `envResult` the reflection payload the follow-up `updateEnvironment`
query returns. -/
structure RExec where
  throws : Option String
  output : List (Bool × String)
  images : List String
  envResult : Option JsVal

/-- Accumulate one stream's messages as `msg.data + '\n'` each, then
`trimEnd()` — the batching of `runCode` in `useWebR`. -/
def rJoinMsgs (isErr : Bool) (l : List (Bool × String)) : String :=
  (String.join ((l.filter fun m => m.1 == isErr).map fun m => m.2 ++ "\n")).trimRight

/-- Embeds `plot-<counter++>` records for the captured images of one R run. -/
def mkRPlots (counter : Nat) (images : List String) : List PlotData :=
  images.enum.map fun p => ⟨"plot-" ++ toString (counter + p.1), p.2⟩

/-- Embeds `runCode` of `useWebR`.  `ready` models `webR` and the shelter being
available.  Guard; echo the `input` line; run `captureR`: on a throw append
its message as one stderr line, otherwise append the batched stdout then
stderr lines (each only when non-empty) and append one plot per captured
image; finally, refresh via `updateEnvironment`. -/
def rRunCode (ready : Bool) (s : RState) (code : String) (ex : RExec) : RState :=
  if ¬ ready ∨ s.isLoading then s
  else
    let console1 := s.consoleOutput ++ [⟨.input, code⟩]
    match ex.throws with
    | some msg =>
      rUpdateEnvironment { s with consoleOutput := console1 ++ [⟨.stderr, msg⟩] } ex.envResult
    | none =>
      let so := rJoinMsgs false ex.output
      let se := rJoinMsgs true ex.output
      let console2 := console1 ++ (if so = "" then [] else [⟨.stdout, so⟩])
        ++ (if se = "" then [] else [⟨.stderr, se⟩])
      let s2 :=
        if ex.images.length > 0 then
          { s with consoleOutput := console2,
                   plots := s.plots ++ mkRPlots s.plotIdCounter ex.images,
                   plotIdCounter := s.plotIdCounter + ex.images.length }
        else { s with consoleOutput := console2 }
      rUpdateEnvironment s2 ex.envResult

/-- The `^[a-zA-Z0-9_.]+$` test of the R `viewObjectByName` (the R flavor
additionally allows dots). -/
def validRName (s : String) : Bool :=
  (s != "") && s.data.all fun c => c.isAlpha || c.isDigit || c == '_' || c == '.'

/-- Embeds `viewObjectByName` of `useWebR`: reject invalid names with a stderr
line; otherwise look the name up in the cached viewable-data-frame map (no
interpreter call at all) and either install the table or report a stderr
line. -/
def rViewObjectByName (s : RState) (name : String) : RState :=
  if ¬ validRName name then
    { s with consoleOutput :=
        s.consoleOutput ++ [⟨.stderr, "Error: Invalid object name for View(): " ++ name⟩] }
  else
    match s.viewableDataFrames.lookup name with
    | some table => { s with tableData := some ⟨name, table.data, table.columns⟩ }
    | none =>
      { s with consoleOutput := s.consoleOutput ++
          [⟨.stderr, "Data for object '" ++ name ++
            "' not found. It might not be a data.frame or is not in the global environment."⟩] }

/-- Embeds `clearPlots` of `useWebR`. -/
def rClearPlots (s : RState) : RState := { s with plots := [] }

/-- Embeds `clearTable` of `useWebR`. -/
def rClearTable (s : RState) : RState := { s with tableData := none }

/-- Embeds `clearConsole` of `useWebR`. -/
def rClearConsole (s : RState) : RState := { s with consoleOutput := [] }

/-! ## App session state (`App.tsx` + `EditorPanel`) -/

/-- The `Language` union of `App.tsx` (named `Lang` here: Mathlib already
declares a `Language`). -/
inductive Lang where
  | r
  | python
deriving DecidableEq, Repr

/-- The `App` component's state cells that the editor/history logic touches. -/
structure AppState where
  language : Lang
  rCode : String
  pythonCode : String
  editorCode : String
  commandHistory : List String
  historyIndex : Int
  tempUserCode : String
deriving DecidableEq, Repr

/-- Body of the `useEffect` with dependency list `[language, rCode,
pythonCode]`: load the active language's persisted buffer into the editor and
reset command history, history cursor and draft.  React re-runs it after any
render in which one of those three dependencies changed. -/
def appResetEffect (s : AppState) : AppState :=
  { s with editorCode := if s.language = .r then s.rCode else s.pythonCode,
           commandHistory := [], historyIndex := -1, tempUserCode := "" }

/-- Embeds `handleCodeChange`: persist the new text into the active language's
buffer and mirror it into the editor. -/
def appHandleCodeChange (s : AppState) (newCode : String) : AppState :=
  if s.language = .r then { s with rCode := newCode, editorCode := newCode }
  else { s with pythonCode := newCode, editorCode := newCode }

/-- One user edit of the source buffer (any means other than history
navigation): the Monaco `onChange` handler resets the history cursor and
calls `setCode` (= `handleCodeChange`); afterwards React re-runs the reset
effect when one of its dependencies (`language`, `rCode`, `pythonCode`)
changed in that update. -/
def appEditorEdit (s : AppState) (newCode : String) : AppState :=
  let s1 := { appHandleCodeChange s newCode with historyIndex := -1 }
  if s1.rCode ≠ s.rCode ∨ s1.pythonCode ≠ s.pythonCode ∨ s1.language ≠ s.language then
    appResetEffect s1
  else s1

/-- Embeds `handleRun`: no-op on a whitespace-only buffer; otherwise push the
trimmed code to the front of the history with duplicates removed, reset
cursor and draft, and hand the code to the active backend (returned as the
`Option`).  (`handleRun` changes none of the reset effect's dependencies, so
the effect does not re-run.) -/
def appHandleRun (s : AppState) : AppState × Option String :=
  let trimmed := s.editorCode.trim
  if trimmed = "" then (s, none)
  else
    ({ s with commandHistory := trimmed :: s.commandHistory.filter (· ≠ trimmed),
              historyIndex := -1, tempUserCode := "" }, some trimmed)

/-- A language-switch click: `setLanguage` (React bails out when the value
is unchanged), then the reset effect re-runs because `language` changed. -/
def appSwitchLanguage (s : AppState) (lang : Lang) : AppState :=
  if lang = s.language then s else appResetEffect { s with language := lang }

/-! ## History navigation (`ConsolePanel.handleKeyDown` in `RightPanel.tsx`;
the `onKeyDown` listeners of `EditorPanel.handleEditorDidMount` perform the
same transitions on `(code, commandHistory, historyIndex, tempUserCode)`) -/

/-- The four state cells the history-recall key handlers read and write. -/
structure NavState where
  inputValue : String
  commandHistory : List String
  historyIndex : Int
  tempUserCode : String
deriving DecidableEq, Repr

/-- Embeds `ArrowUp` (recall older): no-op on an empty history; on the first step of
a navigation run (cursor `-1`) snapshot the buffer into the draft slot; move
the cursor one step toward the oldest entry, clamped at the oldest, and load
that entry. -/
def navUp (s : NavState) : NavState :=
  if s.commandHistory.length = 0 then s
  else
    let s1 := if s.historyIndex = -1 then { s with tempUserCode := s.inputValue } else s
    let newIndex : Int := min (s.historyIndex + 1) ((s.commandHistory.length : Int) - 1)
    { s1 with historyIndex := newIndex,
              inputValue := s.commandHistory.getD newIndex.toNat "" }

/-- Embeds `ArrowDown` (recall newer): no-op when not navigating (cursor `-1`);
otherwise move one step toward the newest entry, and past the newest restore
the draft buffer. -/
def navDown (s : NavState) : NavState :=
  if s.historyIndex = -1 then s
  else
    let newIndex := s.historyIndex - 1
    if newIndex < 0 then { s with historyIndex := newIndex, inputValue := s.tempUserCode }
    else { s with historyIndex := newIndex,
                  inputValue := s.commandHistory.getD newIndex.toNat "" }

/-! ## Table viewer sorting (`ViewerPanel` in `RightPanel.tsx`) -/

/-- Embeds `sortConfig.direction`. -/
inductive SortDir where
  | ascending
  | descending
deriving DecidableEq, Repr

/-- Embeds `sortConfig`. -/
structure SortConfig where
  key : Option String
  direction : SortDir
deriving DecidableEq, Repr

/-- The string branch of the sort comparator (`strA`/`strB` are already the
lowercased coercions). -/
def cmpStr (dir : SortDir) (strA strB : String) : Int :=
  if strA < strB then (if dir = .ascending then -1 else 1)
  else if strB < strA then (if dir = .ascending then 1 else -1)
  else 0

/-- The comparator passed to `sortableItems.sort`: nulls/undefineds first in
the checks (returning `1`/`-1` puts them last in either direction), numeric
difference when both values are numbers, otherwise case-insensitive
comparison of the `String(·)` coercions. -/
def cmpVal (dir : SortDir) (a b : JsVal) : Int :=
  match a, b with
  | .jsNull, _ => 1
  | _, .jsNull => -1
  | .jsNum x, .jsNum y => if dir = .ascending then x - y else y - x
  | _, _ => cmpStr dir ((jsString a).toLower) ((jsString b).toLower)

/-- Row order used by the sort: the comparator on the sort column's values. -/
def rowLe (key : String) (dir : SortDir) (a b : Row) : Prop :=
  cmpVal dir (rowGet a key) (rowGet b key) ≤ 0

instance (key : String) (dir : SortDir) : DecidableRel (rowLe key dir) :=
  fun a b => inferInstanceAs (Decidable (cmpVal dir (rowGet a key) (rowGet b key) ≤ 0))

/-- The `sortedData` memo: a copy of the rows, sorted by the comparator when
a sort key is set (`Array.prototype.sort` with a comparator, modelled by the
stable insertion sort on the same order). -/
def sortedData (td : Option TableData) (cfg : SortConfig) : List Row :=
  match td with
  | none => []
  | some t =>
    match cfg.key with
    | none => t.data
    | some k => List.insertionSort (rowLe k cfg.direction) t.data

/-- Embeds `requestSort`: ascending unless the same column was already sorted
ascending, in which case descending. -/
def requestSort (cfg : SortConfig) (key : String) : SortConfig :=
  ⟨some key,
   if cfg.key = some key ∧ cfg.direction = .ascending then .descending else .ascending⟩

/-- The `ViewerPanel`'s inputs and local state: the stored table snapshot
(a prop owned by the backend hook) and the local sort configuration. -/
structure ViewerState where
  tableData : Option TableData
  sortConfig : SortConfig

/-- Clicking a column header: only `sortConfig` changes. -/
def viewerRequestSort (v : ViewerState) (key : String) : ViewerState :=
  { v with sortConfig := requestSort v.sortConfig key }

/-- Embeds `v` is a JavaScript number. -/
def isNumVal (v : JsVal) : Prop := ∃ n, v = .jsNum n

/-- The concrete 2×2 data frame (`columns [a, b]`) used in the C6
counterexample, in WebR `.toJs()` shape. -/
def c6DfJs : JsVal :=
  .jsNode "list" (some [.jsStr "a", .jsStr "b"])
    [.jsNode "double" none [.jsNum 1, .jsNum 2], .jsNode "double" none [.jsNum 3, .jsNum 4]]

/-- An R-backend state whose viewable-data-frame cache holds `df` = the 2×2
frame above. -/
def c6RState : RState :=
  ⟨false, [], [], none, [], 0, [], [("df", (rObjectToTable c6DfJs).getD ⟨[], []⟩)]⟩

/-- One operation against the Python backend (an element of a call sequence
from the UI). -/
inductive PyOp where
  | run (code : String) (isInteractive : Bool) (ex : PyExec)
  | view (name : String) (q : Option PandasSplit)
  | viewPlot (name : String) (b64 : Option String)
  | clearPlots
  | clearTable
  | clearConsole

/-- Dispatch one Python-backend operation. -/
def pyStep (ready : Bool) (op : PyOp) : PyState × PyInterp → PyState × PyInterp
  | (s, it) =>
    match op with
    | .run code inter ex => pyRunCode ready s it code inter ex
    | .view name q => ((pyViewObjectByName ready s name q).1, it)
    | .viewPlot name b => (pyViewPlotByName ready s name b, it)
    | .clearPlots => (pyClearPlots s, it)
    | .clearTable => (pyClearTable s, it)
    | .clearConsole => (pyClearConsole s, it)

/-- One operation against the R backend. -/
inductive ROp where
  | run (code : String) (ex : RExec)
  | view (name : String)
  | clearPlots
  | clearTable
  | clearConsole

/-- Dispatch one R-backend operation. -/
def rStep (ready : Bool) (op : ROp) (s : RState) : RState :=
  match op with
  | .run code ex => rRunCode ready s code ex
  | .view name => rViewObjectByName s name
  | .clearPlots => rClearPlots s
  | .clearTable => rClearTable s
  | .clearConsole => rClearConsole s

/-- The `input` echo plus the batched stdout/stderr lines (each only when
non-empty) appended to the console by a non-throwing R run. -/
def rRunConsoleDelta (code : String) (output : List (Bool × String)) : List ConsoleOutput :=
  [⟨.input, code⟩]
    ++ (if rJoinMsgs false output = "" then [] else [⟨.stdout, rJoinMsgs false output⟩])
    ++ (if rJoinMsgs true output = "" then [] else [⟨.stderr, rJoinMsgs true output⟩])

/-- The plot-collection refresh that claim C1 asserts after every run:
append of the open figures' records for non-interactive calls, full
replacement for interactive calls. -/
def pyPlotsRefreshedAsClaimed (before after : PyState) (figsAfter : List String)
    (isInteractive : Bool) : Prop :=
  after.plots =
    if isInteractive then mkPlotObjects before.plotIdCounter figsAfter
    else before.plots ++ mkPlotObjects before.plotIdCounter figsAfter

/-- Execution outcome used by the C1 counterexample: one figure was opened,
then the statement raised. -/
def c1Exec : PyExec := ⟨true, [(true, "NameError: name 'undefined_name' is not defined")],
  fun _ => ["f1"], []⟩

/-- Fresh ready backend state used by the C1/C2 counterexamples and
witnesses. -/
def c1State : PyState := ⟨false, [], [], none, [], 0⟩

/-- Fresh interpreter state (no open figures) for the same. -/
def c1It : PyInterp := ⟨[], []⟩

/-- Execution outcome used by the C2 counterexample: a script that draws one
figure and succeeds. -/
def c2Exec : PyExec := ⟨false, [], fun _ => ["f1"], []⟩

/-! ## Helper lemmas and claim theorems -/

theorem mkPlotObjects_length (c : Nat) (l : List String) :
    (mkPlotObjects c l).length = l.length := by
  simp [mkPlotObjects]

theorem mkPlotObjects_map_dataUrl (c : Nat) (l : List String) :
    (mkPlotObjects c l).map PlotData.dataUrl = l.map ("data:image/png;base64," ++ ·) := by
  unfold mkPlotObjects
  rw [List.map_map]
  rw [show (PlotData.dataUrl ∘ fun p : Nat × String =>
        (⟨"plot-" ++ toString (c + p.1), "data:image/png;base64," ++ p.2⟩ : PlotData))
      = (fun s => "data:image/png;base64," ++ s) ∘ Prod.snd from rfl]
  rw [← List.map_map, List.enum_map_snd]

theorem append_mkPlotObjects_ite (c : Nat) (l : List String) (p : List PlotData) :
    (if (mkPlotObjects c l).isEmpty then p else p ++ mkPlotObjects c l)
      = p ++ mkPlotObjects c l := by
  cases l with
  | nil => simp [mkPlotObjects]
  | cons x xs => simp [mkPlotObjects, List.enum]

theorem pyTruncateRepr_short (r : String) (h : r.length ≤ 100) : pyTruncateRepr r = r := by
  simp [pyTruncateRepr, Nat.not_lt.mpr h]

theorem pyTruncateRepr_long (r : String) (h : r.length > 100) :
    pyTruncateRepr r = String.mk (r.data.take 100) ++ "..." := by
  simp [pyTruncateRepr, h]

theorem string_mk_length (l : List Char) : (String.mk l).length = l.length := rfl

theorem pyTruncateRepr_long_length (r : String) (h : r.length > 100) :
    (pyTruncateRepr r).length = 103 := by
  rw [pyTruncateRepr_long r h, String.length_append, string_mk_length, List.length_take]
  have h1 : r.data.length = r.length := rfl
  have h3 : ("...".length : Nat) = 3 := rfl
  omega

theorem pyTruncateRepr_length_le (r : String) : (pyTruncateRepr r).length ≤ 103 := by
  by_cases h : r.length > 100
  · rw [pyTruncateRepr_long_length r h]
  · rw [pyTruncateRepr_short r (by omega)]; omega

theorem rEnvSection_frame (s : RState) (ns vs : List JsVal) :
    (rEnvSection s ns vs).consoleOutput = s.consoleOutput ∧
    (rEnvSection s ns vs).plots = s.plots ∧
    (rEnvSection s ns vs).tableData = s.tableData ∧
    (rEnvSection s ns vs).isLoading = s.isLoading ∧
    (rEnvSection s ns vs).plotIdCounter = s.plotIdCounter := by
  unfold rEnvSection
  cases jsFindStrIdx ns "env" <;> simp

theorem rPkgSection_frame (s : RState) (ns vs : List JsVal) :
    (rPkgSection s ns vs).consoleOutput = s.consoleOutput ∧
    (rPkgSection s ns vs).plots = s.plots ∧
    (rPkgSection s ns vs).tableData = s.tableData ∧
    (rPkgSection s ns vs).isLoading = s.isLoading ∧
    (rPkgSection s ns vs).plotIdCounter = s.plotIdCounter ∧
    (rPkgSection s ns vs).environment = s.environment := by
  unfold rPkgSection
  split
  · split <;> simp
  · simp

theorem rDfsSection_frame (s : RState) (ns vs : List JsVal) :
    (rDfsSection s ns vs).consoleOutput = s.consoleOutput ∧
    (rDfsSection s ns vs).plots = s.plots ∧
    (rDfsSection s ns vs).tableData = s.tableData ∧
    (rDfsSection s ns vs).isLoading = s.isLoading ∧
    (rDfsSection s ns vs).plotIdCounter = s.plotIdCounter ∧
    (rDfsSection s ns vs).environment = s.environment := by
  unfold rDfsSection
  cases jsFindStrIdx ns "dataframes" <;> simp

theorem rApplyEnvResult_frame (s : RState) (r : JsVal) :
    (rApplyEnvResult s r).consoleOutput = s.consoleOutput ∧
    (rApplyEnvResult s r).plots = s.plots ∧
    (rApplyEnvResult s r).tableData = s.tableData ∧
    (rApplyEnvResult s r).isLoading = s.isLoading ∧
    (rApplyEnvResult s r).plotIdCounter = s.plotIdCounter := by
  unfold rApplyEnvResult
  split
  · split
    · refine ⟨?_, ?_, ?_, ?_, ?_⟩ <;>
        simp [rDfsSection_frame, rPkgSection_frame, rEnvSection_frame,
          (rDfsSection_frame _ _ _).1, (rDfsSection_frame _ _ _).2.1,
          (rDfsSection_frame _ _ _).2.2.1, (rDfsSection_frame _ _ _).2.2.2.1,
          (rDfsSection_frame _ _ _).2.2.2.2,
          (rPkgSection_frame _ _ _).1, (rPkgSection_frame _ _ _).2.1,
          (rPkgSection_frame _ _ _).2.2.1, (rPkgSection_frame _ _ _).2.2.2.1,
          (rPkgSection_frame _ _ _).2.2.2.2.1,
          (rEnvSection_frame _ _ _).1, (rEnvSection_frame _ _ _).2.1,
          (rEnvSection_frame _ _ _).2.2.1, (rEnvSection_frame _ _ _).2.2.2.1,
          (rEnvSection_frame _ _ _).2.2.2.2]
    · simp
  · simp

theorem rUpdateEnvironment_frame (s : RState) (r : Option JsVal) :
    (rUpdateEnvironment s r).consoleOutput = s.consoleOutput ∧
    (rUpdateEnvironment s r).plots = s.plots ∧
    (rUpdateEnvironment s r).tableData = s.tableData ∧
    (rUpdateEnvironment s r).isLoading = s.isLoading ∧
    (rUpdateEnvironment s r).plotIdCounter = s.plotIdCounter := by
  cases r with
  | none => exact ⟨rfl, rfl, rfl, rfl, rfl⟩
  | some v => exact rApplyEnvResult_frame s v

/-- The environment field produced by `rUpdateEnvironment` depends only on
the query result and the prior environment. -/
theorem rUpdateEnvironment_env_congr (s s' : RState) (r : Option JsVal)
    (h : s.environment = s'.environment) :
    (rUpdateEnvironment s r).environment = (rUpdateEnvironment s' r).environment := by
  cases r with
  | none => exact h
  | some v =>
    show (rApplyEnvResult s v).environment = (rApplyEnvResult s' v).environment
    cases v with
    | jsNull => exact h
    | jsBool b => exact h
    | jsNum n => exact h
    | jsStr t => exact h
    | jsNode t names values =>
      cases names with
      | none => exact h
      | some ns =>
        by_cases ht : t = "list"
        · simp only [rApplyEnvResult]
          rw [if_pos ht, if_pos ht]
          rw [(rDfsSection_frame _ _ _).2.2.2.2.2, (rDfsSection_frame _ _ _).2.2.2.2.2,
              (rPkgSection_frame _ _ _).2.2.2.2.2, (rPkgSection_frame _ _ _).2.2.2.2.2]
          unfold rEnvSection
          split <;> simp [h]
        · simp only [rApplyEnvResult]
          rw [if_neg ht, if_neg ht]
          exact h

/-- Inserting into a list that satisfies the adjacent-order invariant
`P x y := r x y ∨ ¬ r y x` preserves it (no totality or transitivity of `r`
needed). -/
theorem chain'_orderedInsert {α : Type} (r : α → α → Prop) [DecidableRel r]
    (P : α → α → Prop) (hP : ∀ x y, r x y → P x y) (hP' : ∀ x y, ¬ r x y → P y x)
    (a : α) : ∀ l : List α, List.Chain' P l → List.Chain' P (List.orderedInsert r a l)
  | [], _ => List.chain'_singleton a
  | b :: l, hbl => by
    simp only [List.orderedInsert]
    by_cases hr : r a b
    · rw [if_pos hr]
      exact List.chain'_cons.mpr ⟨hP a b hr, hbl⟩
    · rw [if_neg hr]
      have htl : List.Chain' P l := (List.chain'_cons'.mp hbl).2
      have hins : List.Chain' P (List.orderedInsert r a l) :=
        chain'_orderedInsert r P hP hP' a l htl
      refine List.chain'_cons'.mpr ⟨?_, hins⟩
      intro y hy
      cases l with
      | nil =>
        simp only [List.orderedInsert, List.head?, Option.mem_def, Option.some.injEq] at hy
        rw [← hy]
        exact hP' a b hr
      | cons c l' =>
        simp only [List.orderedInsert] at hy
        by_cases hrc : r a c
        · rw [if_pos hrc] at hy
          simp only [List.head?, Option.mem_def, Option.some.injEq] at hy
          rw [← hy]
          exact hP' a b hr
        · rw [if_neg hrc] at hy
          simp only [List.head?, Option.mem_def, Option.some.injEq] at hy
          rw [← hy]
          exact (List.chain'_cons'.mp hbl).1 c rfl

/-- The insertion sort satisfies the adjacent-order invariant. -/
theorem chain'_insertionSort {α : Type} (r : α → α → Prop) [DecidableRel r]
    (P : α → α → Prop) (hP : ∀ x y, r x y → P x y) (hP' : ∀ x y, ¬ r x y → P y x) :
    ∀ l : List α, List.Chain' P (List.insertionSort r l)
  | [] => List.chain'_nil
  | a :: l => by
    simp only [List.insertionSort]
    exact chain'_orderedInsert r P hP hP' a _ (chain'_insertionSort r P hP hP' l)

/-- Null values compare after everything, in both directions: if `u` may
stay before `v` under the comparator and `u` is null, so is `v`. -/
theorem cmpVal_null_last (dir : SortDir) (u v : JsVal)
    (h : cmpVal dir u v ≤ 0 ∨ ¬ cmpVal dir v u ≤ 0) :
    u = .jsNull → v = .jsNull := by
  intro hu
  subst hu
  rcases h with h | h
  · simp [cmpVal] at h
  · by_contra hv
    apply h
    cases v <;> simp_all [cmpVal]

/-- Number-number pairs are ordered numerically, following the direction. -/
theorem cmpVal_num_order (dir : SortDir) (u v : JsVal)
    (h : cmpVal dir u v ≤ 0 ∨ ¬ cmpVal dir v u ≤ 0) :
    ∀ x y : Int, u = .jsNum x → v = .jsNum y →
      (dir = .ascending → x ≤ y) ∧ (dir = .descending → y ≤ x) := by
  intro x y hu hv
  subst hu hv
  cases dir <;> simp [cmpVal] at h ⊢ <;> omega

/-- Abstract order content of the string branch. -/
theorem cmpStr_order (dir : SortDir) (sa sb : String)
    (h : cmpStr dir sa sb ≤ 0 ∨ ¬ cmpStr dir sb sa ≤ 0) :
    (dir = .ascending → sa ≤ sb) ∧ (dir = .descending → sb ≤ sa) := by
  unfold cmpStr at h
  rcases lt_trichotomy sa sb with hlt | heq | hgt
  · constructor
    · intro _; exact le_of_lt hlt
    · intro hd
      subst hd
      rcases h with h | h
      · rw [if_pos hlt] at h; simp at h
      · exfalso; apply h
        rw [if_neg (asymm hlt), if_pos hlt]
        simp
  · constructor <;> intro _ <;> rw [heq]
  · constructor
    · intro hd
      subst hd
      rcases h with h | h
      · rw [if_neg (asymm hgt), if_pos hgt] at h; simp at h
      · exfalso; apply h
        rw [if_pos hgt]
        simp
    · intro _; exact le_of_lt hgt

/-- All other non-null pairs are ordered by case-insensitive comparison of
their `String(·)` coercions, following the direction. -/
theorem cmpVal_str_order (dir : SortDir) (u v : JsVal)
    (h : cmpVal dir u v ≤ 0 ∨ ¬ cmpVal dir v u ≤ 0) :
    u ≠ .jsNull → v ≠ .jsNull → (¬ isNumVal u ∨ ¬ isNumVal v) →
      (dir = .ascending → (jsString u).toLower ≤ (jsString v).toLower) ∧
      (dir = .descending → (jsString v).toLower ≤ (jsString u).toLower) := by
  intro hu hv hnum
  have hcu : cmpVal dir u v = cmpStr dir ((jsString u).toLower) ((jsString v).toLower) := by
    cases u <;> cases v <;> simp_all [cmpVal, isNumVal]
  have hcv : cmpVal dir v u = cmpStr dir ((jsString v).toLower) ((jsString u).toLower) := by
    cases u <;> cases v <;> simp_all [cmpVal, isNumVal]
  rw [hcu, hcv] at h
  exact cmpStr_order dir _ _ h

theorem navUp_empty (s : NavState) (h : s.commandHistory.length = 0) : navUp s = s := by
  simp [navUp, h]

theorem navDown_none (s : NavState) (h : s.historyIndex = -1) : navDown s = s := by
  simp [navDown, h]

/-- After `k ≥ 1` "older" steps from a non-navigating state over a non-empty
history: the history is untouched, the pre-navigation buffer sits in the
draft slot, the cursor is at `min (k-1) (length-1)` (clamped at the oldest)
and the buffer shows that entry. -/
theorem navUp_phase (s : NavState) (h : s.historyIndex = -1)
    (hne : s.commandHistory.length ≠ 0) :
    ∀ k : Nat, 1 ≤ k →
      (navUp^[k] s).commandHistory = s.commandHistory ∧
      (navUp^[k] s).tempUserCode = s.inputValue ∧
      (navUp^[k] s).historyIndex
        = min ((k : Int) - 1) ((s.commandHistory.length : Int) - 1) ∧
      (navUp^[k] s).inputValue
        = s.commandHistory.getD (min (k - 1) (s.commandHistory.length - 1)) "" := by
  intro k hk
  induction k with
  | zero => omega
  | succ k ih =>
    by_cases hk0 : k = 0
    · subst hk0
      rw [Function.iterate_one]
      have hmin : min (s.historyIndex + 1) ((s.commandHistory.length : Int) - 1) = 0 := by
        rw [h]; omega
      have hminN : min (1 - 1) (s.commandHistory.length - 1) = 0 := by omega
      have hcast : min ((1 : Int) - 1) ((s.commandHistory.length : Int) - 1) = 0 := by omega
      have hidx : ((0 : Int) ⊓ ((s.commandHistory.length : Int) - 1)).toNat = 0 := by omega
      refine ⟨?_, ?_, ?_, ?_⟩ <;>
        simp [navUp, hne, h, hmin, hminN, hcast, hidx]
    · have hk1 : 1 ≤ k := by omega
      obtain ⟨hh, ht, hi, hv⟩ := ih hk1
      rw [Function.iterate_succ_apply']
      set u := navUp^[k] s with hu
      have hlenu : ¬ u.commandHistory.length = 0 := by rw [hh]; exact hne
      have hne' : ¬ u.historyIndex = -1 := by
        rw [hi]
        have : (1 : Int) ≤ s.commandHistory.length := by
          omega
        omega
      have hmin : min (u.historyIndex + 1) ((u.commandHistory.length : Int) - 1)
          = min ((k : Int) + 1 - 1) ((s.commandHistory.length : Int) - 1) := by
        rw [hi, hh]; omega
      have htoNat : (min ((k : Int) + 1 - 1) ((s.commandHistory.length : Int) - 1)).toNat
          = min (k + 1 - 1) (s.commandHistory.length - 1) := by omega
      have hidx2 : (((k : Int)) ⊓ ((s.commandHistory.length : Int) - 1)).toNat
          = k ⊓ (s.commandHistory.length - 1) := by omega
      refine ⟨?_, ?_, ?_, ?_⟩ <;>
        simp only [navUp, hlenu, if_neg hne', ite_false, if_false, hmin] <;>
        simp [hh, ht, hv, htoNat, hidx2]

/-- From cursor position `i`, `i + 1` "newer" steps restore the draft buffer
and reset the cursor to `-1` (history and draft untouched). -/
theorem navDown_phase :
    ∀ (i : Nat) (t : NavState), t.historyIndex = (i : Int) →
      navDown^[i + 1] t = ⟨t.tempUserCode, t.commandHistory, -1, t.tempUserCode⟩
  | 0, t, h => by
    rw [Function.iterate_one]
    have h0 : ¬ t.historyIndex = -1 := by rw [h]; omega
    have hneg : t.historyIndex - 1 < 0 := by rw [h]; omega
    have hm1 : t.historyIndex - 1 = -1 := by rw [h]; omega
    simp [navDown, h0, hneg, hm1]
  | i + 1, t, h => by
    rw [Function.iterate_succ_apply]
    have h0 : ¬ t.historyIndex = -1 := by rw [h]; omega
    have hneg : ¬ t.historyIndex - 1 < 0 := by rw [h]; omega
    have hstep : navDown t
        = ⟨t.commandHistory.getD (t.historyIndex - 1).toNat "", t.commandHistory,
           t.historyIndex - 1, t.tempUserCode⟩ := by
      simp [navDown, h0, hneg]
    rw [hstep]
    have h' : (⟨t.commandHistory.getD (t.historyIndex - 1).toNat "", t.commandHistory,
        t.historyIndex - 1, t.tempUserCode⟩ : NavState).historyIndex = (i : Int) := by
      show t.historyIndex - 1 = (i : Int)
      rw [h]; omega
    rw [navDown_phase i _ h']

/-! ## Claim theorems -/

/-- C10: after every Python environment refresh, the snapshot contains no
entry whose name begins with an underscore, none whose value is a module,
and no builtin name; and a binding whose `repr()` raises is still included,
with the `<TypeName>` placeholder as its representation. -/
theorem c10_python_env_filter :
    (∀ (builtins : List String) (scope : List (String × PyValue)) (n : String) (e : PyEnvObject),
        (n, e) ∈ buildPyEnv builtins scope →
          startsWithUnderscore n = false ∧ e.type_ ≠ "module" ∧ n ∉ builtins) ∧
    (∀ (builtins : List String) (scope : List (String × PyValue)) (n : String) (v : PyValue),
        (n, v) ∈ scope → v.reprVal = none →
        ¬ (n ∈ pyVarsToIgnore ∨ n ∈ builtins ∨ startsWithUnderscore n = true ∨ v.typeName = "module") →
        ("<" ++ v.typeName ++ ">").length ≤ 100 →
          (n, ⟨v.typeName, "<" ++ v.typeName ++ ">", v.isDataFrame, v.isFigure⟩)
            ∈ buildPyEnv builtins scope) := by
  constructor
  · intro builtins scope n e hmem
    rw [buildPyEnv, List.mem_filterMap] at hmem
    obtain ⟨p, hp, hcond⟩ := hmem
    by_cases hc : p.1 ∈ pyVarsToIgnore ∨ p.1 ∈ builtins ∨ startsWithUnderscore p.1 = true
        ∨ p.2.typeName = "module"
    · rw [if_pos hc] at hcond; exact absurd hcond (by simp)
    · rw [if_neg hc] at hcond
      push_neg at hc
      obtain ⟨-, hb, hu, hm⟩ := hc
      obtain ⟨h1, h2⟩ := Prod.mk.injEq .. ▸ Option.some.injEq .. ▸ hcond
      subst h1
      refine ⟨by simpa using hu, ?_, hb⟩
      rw [← h2]
      exact hm
  · intro builtins scope n v hmem hrepr hc hlen
    rw [buildPyEnv, List.mem_filterMap]
    refine ⟨(n, v), hmem, ?_⟩
    rw [if_neg hc]
    have : pyReprOf v = "<" ++ v.typeName ++ ">" := by rw [pyReprOf, hrepr]
    rw [this, pyTruncateRepr_short _ hlen]

/-- C7 counterexample: a Python binding whose `repr` has 101 characters
yields an environment entry whose textual representation has 103 characters,
so the representation length is not capped at 100 as claimed. -/
theorem c7_counterexample :
    ((buildPyEnv [] [("x", ⟨"str", some (String.mk (List.replicate 101 'a')), false, false⟩)]).map
        (fun p => p.2.reprStr.length) = [103]) ∧ ¬ (103 ≤ 100) := by
  constructor
  · decide
  · decide

/-- C7 (amended): every Python-flavor entry representation is the repr
truncated to its first 100 characters plus a `...` suffix when the repr
exceeds 100 characters (total length then exactly 103, and at most 103 in
all cases), and is the untouched repr otherwise; the R flavor joins the
interpreter's `str` output without any cap, so its entries can be
arbitrarily long. -/
theorem c7_repr_truncation_amended :
    (∀ (builtins : List String) (scope : List (String × PyValue)) (n : String) (e : PyEnvObject),
        (n, e) ∈ buildPyEnv builtins scope →
          e.reprStr.length ≤ 103 ∧
          ∃ v, (n, v) ∈ scope ∧ e.reprStr = pyTruncateRepr (pyReprOf v)) ∧
    (∀ r : String, r.length ≤ 100 → pyTruncateRepr r = r) ∧
    (∀ r : String, r.length > 100 →
        pyTruncateRepr r = String.mk (r.data.take 100) ++ "..."
          ∧ (pyTruncateRepr r).length = 103) ∧
    (∀ L : Nat, ∃ (envJs : JsVal) (n : String) (e : EnvObject),
        (n, e) ∈ rParseEnv envJs ∧ e.str.length = L) := by
  refine ⟨?_, pyTruncateRepr_short, fun r h => ⟨pyTruncateRepr_long r h,
    pyTruncateRepr_long_length r h⟩, ?_⟩
  · intro builtins scope n e hmem
    rw [buildPyEnv, List.mem_filterMap] at hmem
    obtain ⟨p, hp, hcond⟩ := hmem
    by_cases hc : p.1 ∈ pyVarsToIgnore ∨ p.1 ∈ builtins ∨ startsWithUnderscore p.1 = true
        ∨ p.2.typeName = "module"
    · rw [if_pos hc] at hcond; exact absurd hcond (by simp)
    · rw [if_neg hc] at hcond
      obtain ⟨h1, h2⟩ := Prod.mk.injEq .. ▸ Option.some.injEq .. ▸ hcond
      subst h1
      constructor
      · rw [← h2]; exact pyTruncateRepr_length_le _
      · exact ⟨p.2, by simpa using hp, by rw [← h2]⟩
  · intro L
    refine ⟨.jsNode "list" (some [.jsStr "x"])
        [.jsNode "list" (some [.jsStr "objectType", .jsStr "class", .jsStr "str"])
          [.jsNode "character" none [.jsStr "variable"],
           .jsNode "character" none [.jsStr "x"],
           .jsNode "character" none [.jsStr (String.mk (List.replicate L 'a'))]]],
      "x", ⟨some (.jsStr "variable"), [.jsStr "x"], String.mk (List.replicate L 'a')⟩, ?_, ?_⟩
    · exact List.mem_singleton.mpr rfl
    · show (String.mk (List.replicate L 'a')).length = L
      rw [string_mk_length, List.length_replicate]

/-- C4 evaluation at the failing input (code bug): with a non-empty command
history, editing the source buffer re-runs the reset effect (its dependency
list contains the per-language buffers, not just the language), which empties
the command history — the claim says a buffer edit must never empty or
shorten it. -/
theorem c4_buffer_edit_empties_history :
    (⟨.r, "old", "", "old", ["plot(1)"], -1, ""⟩ : AppState).commandHistory = ["plot(1)"] ∧
    (appEditorEdit ⟨.r, "old", "", "old", ["plot(1)"], -1, ""⟩ "x <- 1").commandHistory = [] ∧
    (appEditorEdit ⟨.r, "old", "", "old", ["plot(1)"], -1, ""⟩ "x <- 1").historyIndex = -1 := by
  refine ⟨rfl, ?_, ?_⟩ <;> decide

/-- C6 counterexample: in the R flavor, `viewObject("df")` on a tabular
object with columns `[a, b]` produces a TableSnapshot whose columns are
`["a", "b"]` — the implicit leading `#` column is not part of the snapshot,
contradicting the claim that both flavors produce `["#", "a", "b"]`. -/
theorem c6_counterexample :
    ((rViewObjectByName c6RState "df").tableData.map TableData.columns = some ["a", "b"]) ∧
    (["a", "b"] ≠ ["#", "a", "b"]) := by
  constructor
  · rfl
  · decide

/-- C6 (amended): for a tabular object with columns `[a, b]` and 2 rows, the
Python flavor's TableSnapshot has columns `["#", "a", "b"]` with the `#`
cells carrying the object's index values in source row order; the R flavor's
TableSnapshot has only the object's own columns `["a", "b"]`, with rows in
source order (its leading row-number column is added by the table view when
rendering, not stored in the snapshot). -/
theorem c6_table_snapshot_columns_amended :
    (∀ (s : PyState) (name : String) (i0 i1 x0 y0 x1 y1 : JsVal),
        validPyName name = true →
          (pyViewObjectByName true s name
              (some ⟨["a", "b"], [i0, i1], [[x0, y0], [x1, y1]]⟩)).1.tableData
            = some ⟨name,
                [[("#", i0), ("a", x0), ("b", y0)], [("#", i1), ("a", x1), ("b", y1)]],
                ["#", "a", "b"]⟩) ∧
    (∀ (t1 t2 : String) (nm1 nm2 : Option (List JsVal)) (u0 u1 v0 v1 : JsVal),
        rObjectToTable (.jsNode "list" (some [.jsStr "a", .jsStr "b"])
            [.jsNode t1 nm1 [u0, u1], .jsNode t2 nm2 [v0, v1]])
          = some ⟨[[("a", u0), ("b", v0)], [("a", u1), ("b", v1)]], ["a", "b"]⟩) ∧
    (∀ (s : RState) (name : String) (table : RTable),
        validRName name = true → s.viewableDataFrames.lookup name = some table →
          (rViewObjectByName s name).tableData = some ⟨name, table.data, table.columns⟩) := by
  refine ⟨?_, ?_, ?_⟩
  · intro s name i0 i1 x0 y0 x1 y1 hvalid
    simp [pyViewObjectByName, hvalid, pandasRow, List.enum]
  · intro t1 t2 nm1 nm2 u0 u1 v0 v1
    rfl
  · intro s name table hvalid hlookup
    simp [rViewObjectByName, hvalid, hlookup]

/-- C5: `viewObject` on an invalid, missing or non-tabular name appends one
stderr line and leaves the table snapshot untouched; an invalid name causes
no interpreter call at all, and names that pass the identifier pattern can
contain no quote, backslash or newline characters (so interpolating them
into the quoted query cannot escape the string literal, i.e. the name is
never executed as code); both flavors. -/
theorem c5_view_object_rejects_safely :
    (∀ (ready : Bool) (s : PyState) (name : String) (q : Option PandasSplit),
        validPyName name = false →
          (pyViewObjectByName ready s name q).1.consoleOutput
            = s.consoleOutput ++ [⟨.stderr, "Error: Invalid object name for viewer: " ++ name⟩] ∧
          (pyViewObjectByName ready s name q).1.tableData = s.tableData ∧
          (pyViewObjectByName ready s name q).2 = []) ∧
    (∀ (s : PyState) (name : String),
        validPyName name = true →
          (pyViewObjectByName true s name none).1.consoleOutput
            = s.consoleOutput ++ [⟨.stderr, "Could not view object '" ++ name ++ "': Object '"
                ++ name ++ "' is not a DataFrame or does not exist."⟩] ∧
          (pyViewObjectByName true s name none).1.tableData = s.tableData) ∧
    (∀ name : String, validPyName name = true →
        ∀ c ∈ name.data, c ≠ '"' ∧ c ≠ '\\' ∧ c ≠ '\n') ∧
    (∀ (s : RState) (name : String),
        validRName name = false →
          (rViewObjectByName s name).consoleOutput
            = s.consoleOutput ++ [⟨.stderr, "Error: Invalid object name for View(): " ++ name⟩] ∧
          (rViewObjectByName s name).tableData = s.tableData) ∧
    (∀ (s : RState) (name : String),
        validRName name = true → s.viewableDataFrames.lookup name = none →
          (rViewObjectByName s name).consoleOutput
            = s.consoleOutput ++ [⟨.stderr, "Data for object '" ++ name
                ++ "' not found. It might not be a data.frame or is not in the global environment."⟩] ∧
          (rViewObjectByName s name).tableData = s.tableData) := by
  refine ⟨?_, ?_, ?_, ?_, ?_⟩
  · intro ready s name q hinvalid
    refine ⟨?_, ?_, ?_⟩ <;> simp [pyViewObjectByName, hinvalid]
  · intro s name hvalid
    refine ⟨?_, ?_⟩ <;> simp [pyViewObjectByName, hvalid]
  · intro name hvalid c hc
    have hall := (Bool.and_eq_true .. ▸ hvalid).2
    have hch := List.all_eq_true.mp hall c hc
    refine ⟨?_, ?_, ?_⟩ <;> rintro rfl <;> exact absurd hch (by decide)
  · intro s name hinvalid
    refine ⟨?_, ?_⟩ <;> simp [rViewObjectByName, hinvalid]
  · intro s name hvalid hlookup
    refine ⟨?_, ?_⟩ <;> simp [rViewObjectByName, hvalid, hlookup]

theorem pyRunCode_console_ge (ready : Bool) (s : PyState) (it : PyInterp) (code : String)
    (inter : Bool) (ex : PyExec) :
    s.consoleOutput.length ≤ (pyRunCode ready s it code inter ex).1.consoleOutput.length := by
  unfold pyRunCode
  by_cases hg : ¬ ready ∨ s.isLoading
  · rw [if_pos hg]
  · rw [if_neg hg]
    by_cases hr : ex.raises
    · simp [hr]
    · simp [hr]

theorem pyViewObjectByName_console_ge (ready : Bool) (s : PyState) (name : String)
    (q : Option PandasSplit) :
    s.consoleOutput.length ≤ (pyViewObjectByName ready s name q).1.consoleOutput.length := by
  unfold pyViewObjectByName
  split
  · simp
  · cases q <;> simp

theorem pyViewPlotByName_console_ge (ready : Bool) (s : PyState) (name : String)
    (b64 : Option String) :
    s.consoleOutput.length ≤ (pyViewPlotByName ready s name b64).consoleOutput.length := by
  unfold pyViewPlotByName
  split
  · simp
  · cases b64 <;> simp

theorem rRunCode_console_ge (ready : Bool) (s : RState) (code : String) (ex : RExec) :
    s.consoleOutput.length ≤ (rRunCode ready s code ex).consoleOutput.length := by
  unfold rRunCode
  split
  · exact Nat.le_refl _
  · split
    · rw [(rUpdateEnvironment_frame _ _).1]; simp
    · split
      · rw [(rUpdateEnvironment_frame _ _).1]; simp
      · rw [(rUpdateEnvironment_frame _ _).1]; simp

theorem rViewObjectByName_console_ge (s : RState) (name : String) :
    s.consoleOutput.length ≤ (rViewObjectByName s name).consoleOutput.length := by
  unfold rViewObjectByName
  by_cases hv : ¬ validRName name
  · simp [hv]
  · rw [if_neg hv]
    cases s.viewableDataFrames.lookup name <;> simp

/-- C8: under any sequence of backend operations, the console length is
non-decreasing at every step other than an explicit `clearConsole`, which is
the only shortening operation and sets the console to exactly empty; hence
over any sequence of `runCode` calls (or any clear-free sequence) the length
is non-decreasing; both flavors. -/
theorem c8_console_monotone :
    (∀ (ready : Bool) (op : PyOp) (s : PyState) (it : PyInterp),
        op ≠ .clearConsole →
          s.consoleOutput.length ≤ (pyStep ready op (s, it)).1.consoleOutput.length) ∧
    (∀ (ready : Bool) (s : PyState) (it : PyInterp),
        (pyStep ready .clearConsole (s, it)).1.consoleOutput = []) ∧
    (∀ (ready : Bool) (ops : List PyOp) (s : PyState) (it : PyInterp),
        (∀ op ∈ ops, op ≠ PyOp.clearConsole) →
          s.consoleOutput.length
            ≤ (ops.foldl (fun p op => pyStep ready op p) (s, it)).1.consoleOutput.length) ∧
    (∀ (ready : Bool) (op : ROp) (s : RState),
        op ≠ .clearConsole →
          s.consoleOutput.length ≤ (rStep ready op s).consoleOutput.length) ∧
    (∀ (ready : Bool) (s : RState), (rStep ready .clearConsole s).consoleOutput = []) ∧
    (∀ (ready : Bool) (ops : List ROp) (s : RState),
        (∀ op ∈ ops, op ≠ ROp.clearConsole) →
          s.consoleOutput.length
            ≤ (ops.foldl (fun s op => rStep ready op s) s).consoleOutput.length) := by
  have hpy : ∀ (ready : Bool) (op : PyOp) (s : PyState) (it : PyInterp),
      op ≠ .clearConsole →
        s.consoleOutput.length ≤ (pyStep ready op (s, it)).1.consoleOutput.length := by
    intro ready op s it hne
    cases op with
    | run code inter ex => exact pyRunCode_console_ge ready s it code inter ex
    | view name q => exact pyViewObjectByName_console_ge ready s name q
    | viewPlot name b => exact pyViewPlotByName_console_ge ready s name b
    | clearPlots => exact Nat.le_refl _
    | clearTable => exact Nat.le_refl _
    | clearConsole => exact absurd rfl hne
  have hr : ∀ (ready : Bool) (op : ROp) (s : RState),
      op ≠ .clearConsole →
        s.consoleOutput.length ≤ (rStep ready op s).consoleOutput.length := by
    intro ready op s hne
    cases op with
    | run code ex => exact rRunCode_console_ge ready s code ex
    | view name => exact rViewObjectByName_console_ge s name
    | clearPlots => exact Nat.le_refl _
    | clearTable => exact Nat.le_refl _
    | clearConsole => exact absurd rfl hne
  refine ⟨hpy, fun _ _ _ => rfl, ?_, hr, fun _ _ => rfl, ?_⟩
  · intro ready ops
    induction ops with
    | nil => intro s it _; exact Nat.le_refl _
    | cons op rest ih =>
      intro s it hall
      rw [List.foldl_cons]
      have h1 := hpy ready op s it (hall op (List.mem_cons_self op rest))
      have h2 := ih (pyStep ready op (s, it)).1 (pyStep ready op (s, it)).2
        (fun o ho => hall o (List.mem_cons_of_mem op ho))
      exact Nat.le_trans h1 h2
  · intro ready ops
    induction ops with
    | nil => intro s _; exact Nat.le_refl _
    | cons op rest ih =>
      intro s hall
      rw [List.foldl_cons]
      exact Nat.le_trans (hr ready op s (hall op (List.mem_cons_self op rest)))
        (ih _ (fun o ho => hall o (List.mem_cons_of_mem op ho)))

/-- Full characterization of a successful `runCode` on the ready Python
backend. -/
theorem pyRunCode_success (s : PyState) (it : PyInterp) (code : String) (inter : Bool)
    (ex : PyExec) (hload : s.isLoading = false) (hr : ex.raises = false) :
    (pyRunCode true s it code inter ex).1 =
      { s with consoleOutput := s.consoleOutput ++ [⟨.input, code⟩] ++ streamLines ex.emitted,
               environment := buildPyEnv it.builtins ex.globalsAfter,
               plots :=
                 if inter then
                   mkPlotObjects s.plotIdCounter (ex.figEffect it.figs)
                 else
                   s.plots ++ mkPlotObjects s.plotIdCounter (ex.figEffect []),
               plotIdCounter :=
                 s.plotIdCounter + (ex.figEffect (if inter then it.figs else [])).length } ∧
    (pyRunCode true s it code inter ex).2
      = { it with figs := ex.figEffect (if inter then it.figs else []) } := by
  cases inter <;>
    simp [pyRunCode, hload, hr, append_mkPlotObjects_ite, List.append_assoc]

/-- Full characterization of an errored `runCode` on the ready Python
backend: console echo and stream output are kept, the environment is still
refreshed, and the plot list is left untouched. -/
theorem pyRunCode_error (s : PyState) (it : PyInterp) (code : String) (inter : Bool)
    (ex : PyExec) (hload : s.isLoading = false) (hr : ex.raises = true) :
    (pyRunCode true s it code inter ex).1 =
      { s with consoleOutput := s.consoleOutput ++ [⟨.input, code⟩] ++ streamLines ex.emitted,
               environment := buildPyEnv it.builtins ex.globalsAfter } ∧
    (pyRunCode true s it code inter ex).2
      = { it with figs := ex.figEffect (if inter then it.figs else []) } := by
  cases inter <;> simp [pyRunCode, hload, hr, List.append_assoc]

/-- Characterization of an R `runCode` whose `captureR` threw. -/
theorem rRunCode_throws (s : RState) (code : String) (ex : RExec) (msg : String)
    (hload : s.isLoading = false) (hth : ex.throws = some msg) :
    rRunCode true s code ex
      = rUpdateEnvironment
          { s with consoleOutput := s.consoleOutput ++ [⟨.input, code⟩, ⟨.stderr, msg⟩] }
          ex.envResult := by
  simp [rRunCode, hload, hth]

/-- Characterization of an R `runCode` whose `captureR` returned. -/
theorem rRunCode_noThrow (s : RState) (code : String) (ex : RExec)
    (hload : s.isLoading = false) (hth : ex.throws = none) :
    rRunCode true s code ex
      = rUpdateEnvironment
          { s with consoleOutput := s.consoleOutput ++ rRunConsoleDelta code ex.output,
                   plots := s.plots ++ mkRPlots s.plotIdCounter ex.images,
                   plotIdCounter := s.plotIdCounter + ex.images.length }
          ex.envResult := by
  cases himg : ex.images with
  | nil => simp [rRunCode, rRunConsoleDelta, hload, hth, himg, mkRPlots]
  | cons a l => simp [rRunCode, rRunConsoleDelta, hload, hth, himg]

/-- C1 counterexample: an interactive run that opens a figure and then
raises leaves the plot collection unrefreshed (still empty, although a
figure is open afterwards), so the claim that the backend refreshes its plot
collection even when execution raised is false on the code. -/
theorem c1_counterexample :
    ¬ pyPlotsRefreshedAsClaimed c1State
        (pyRunCode true c1State c1It "plt.figure(); undefined_name" true c1Exec).1
        (pyRunCode true c1State c1It "plt.figure(); undefined_name" true c1Exec).2.figs
        true := by
  unfold pyPlotsRefreshedAsClaimed
  decide

/-- C1 (amended): after every `runCode` on a ready backend, success or
failure, the environment snapshot is refreshed from a fresh interpreter
query, and every console line already present is still present (output is
only appended); when execution raised, the plot collection is left exactly
as it was (already-produced plots are kept, but no refresh happens); only
when execution succeeded is the plot collection refreshed (append for
script calls, full replace for interactive calls; R always appends).  Both
flavors. -/
theorem c1_refresh_after_run_amended :
    (∀ (s : PyState) (it : PyInterp) (code : String) (inter : Bool) (ex : PyExec),
        s.isLoading = false →
          (pyRunCode true s it code inter ex).1.environment
              = buildPyEnv it.builtins ex.globalsAfter ∧
          (∃ tail, (pyRunCode true s it code inter ex).1.consoleOutput
              = s.consoleOutput ++ tail) ∧
          (ex.raises = true → (pyRunCode true s it code inter ex).1.plots = s.plots) ∧
          (ex.raises = false →
              pyPlotsRefreshedAsClaimed s (pyRunCode true s it code inter ex).1
                (ex.figEffect (if inter then it.figs else [])) inter)) ∧
    (∀ (s : RState) (code : String) (ex : RExec),
        s.isLoading = false →
          (rRunCode true s code ex).environment
              = (rUpdateEnvironment s ex.envResult).environment ∧
          (∃ tail, (rRunCode true s code ex).consoleOutput = s.consoleOutput ++ tail) ∧
          (∀ m, ex.throws = some m → (rRunCode true s code ex).plots = s.plots) ∧
          (ex.throws = none →
              (rRunCode true s code ex).plots
                = s.plots ++ mkRPlots s.plotIdCounter ex.images)) := by
  constructor
  · intro s it code inter ex hload
    by_cases hr : ex.raises
    · obtain ⟨h1, -⟩ := pyRunCode_error s it code inter ex hload hr
      rw [h1]
      exact ⟨rfl, ⟨[⟨.input, code⟩] ++ streamLines ex.emitted, List.append_assoc _ _ _⟩,
        fun _ => rfl, fun hf => absurd hr (by simp [hf])⟩
    · rw [Bool.not_eq_true] at hr
      obtain ⟨h1, -⟩ := pyRunCode_success s it code inter ex hload hr
      rw [h1]
      refine ⟨rfl, ⟨[⟨.input, code⟩] ++ streamLines ex.emitted, List.append_assoc _ _ _⟩,
        fun hf => absurd hr (by simp [hf]), fun _ => ?_⟩
      unfold pyPlotsRefreshedAsClaimed
      cases inter <;> simp
  · intro s code ex hload
    cases hth : ex.throws with
    | some msg =>
      rw [rRunCode_throws s code ex msg hload hth]
      refine ⟨?_, ?_, ?_, ?_⟩
      · exact rUpdateEnvironment_env_congr _ s ex.envResult rfl
      · exact ⟨_, by rw [(rUpdateEnvironment_frame _ _).1]⟩
      · intro m _
        rw [(rUpdateEnvironment_frame _ _).2.1]
      · intro hcontra
        exact absurd hcontra (by simp)
    | none =>
      rw [rRunCode_noThrow s code ex hload hth]
      refine ⟨?_, ?_, ?_, ?_⟩
      · exact rUpdateEnvironment_env_congr _ s ex.envResult rfl
      · exact ⟨_, by rw [(rUpdateEnvironment_frame _ _).1]⟩
      · intro m hcontra
        exact absurd hcontra (by simp)
      · intro _
        rw [(rUpdateEnvironment_frame _ _).2.1]

/-- C1 amended witness: a concrete errored interactive run keeps its
pre-existing plot record and still refreshes the (empty) environment. -/
theorem c1_refresh_after_run_amended_witness :
    (pyRunCode true c1State c1It "x" true c1Exec).1.environment
        = buildPyEnv c1It.builtins c1Exec.globalsAfter ∧
    (pyRunCode true c1State c1It "x" true c1Exec).1.plots = c1State.plots :=
  ⟨(c1_refresh_after_run_amended.1 c1State c1It "x" true c1Exec rfl).1,
   (c1_refresh_after_run_amended.1 c1State c1It "x" true c1Exec rfl).2.2.1 rfl⟩

/-- C2 counterexample: after a successful non-interactive run that drew one
figure, the interpreter's figure set still contains that figure (the capture
snippet renders without closing; `plt.close('all')` only runs at the start
of the NEXT non-interactive call), so the figure set is not "left empty for
the next run" as the claim states. -/
theorem c2_counterexample :
    (pyRunCode true c1State c1It "plt.plot(xs, ys)" false c2Exec).2.figs = ["f1"] ∧
    (["f1"] : List String) ≠ [] := by
  exact ⟨rfl, by decide⟩

/-- C2 (amended): in non-interactive mode each figure open after execution
is appended to the plot list as one new record, and because the figure set
is cleared at the START of every non-interactive run (not at its end), the
capture is independent of previously open figures and each script run still
starts from an empty figure set; in interactive mode the plot list is
replaced by the records of the currently open figure set.  Consequently a
script producing two plots followed by a script producing one plot yields a
plot list of length 3 in submission order, and one interactive statement
that redraws the same figure twice yields a plot list of length 1. -/
theorem c2_plot_capture_amended :
    (∀ (s : PyState) (it : PyInterp) (code : String) (ex : PyExec),
        s.isLoading = false → ex.raises = false →
          (pyRunCode true s it code false ex).1.plots
              = s.plots ++ mkPlotObjects s.plotIdCounter (ex.figEffect []) ∧
          (pyRunCode true s it code true ex).1.plots
              = mkPlotObjects s.plotIdCounter (ex.figEffect it.figs)) ∧
    (∀ (s : PyState) (it : PyInterp) (code1 code2 : String) (ex1 ex2 : PyExec),
        s.isLoading = false → s.plots = [] → ex1.raises = false → ex2.raises = false →
        (ex1.figEffect []).length = 2 → (ex2.figEffect []).length = 1 →
          (pyRunCode true (pyRunCode true s it code1 false ex1).1
              (pyRunCode true s it code1 false ex1).2 code2 false ex2).1.plots.length = 3 ∧
          (pyRunCode true (pyRunCode true s it code1 false ex1).1
              (pyRunCode true s it code1 false ex1).2 code2 false ex2).1.plots.map
                PlotData.dataUrl
            = (ex1.figEffect [] ++ ex2.figEffect []).map ("data:image/png;base64," ++ ·)) ∧
    (∀ (s : PyState) (it : PyInterp) (code : String) (ex : PyExec),
        s.isLoading = false → ex.raises = false → (ex.figEffect it.figs).length = 1 →
          (pyRunCode true s it code true ex).1.plots.length = 1) := by
  have hscript : ∀ (s : PyState) (it : PyInterp) (code : String) (ex : PyExec),
      s.isLoading = false → ex.raises = false →
        (pyRunCode true s it code false ex).1.plots
            = s.plots ++ mkPlotObjects s.plotIdCounter (ex.figEffect []) := by
    intro s it code ex hload hr
    rw [(pyRunCode_success s it code false ex hload hr).1]
    simp
  have hinter : ∀ (s : PyState) (it : PyInterp) (code : String) (ex : PyExec),
      s.isLoading = false → ex.raises = false →
        (pyRunCode true s it code true ex).1.plots
            = mkPlotObjects s.plotIdCounter (ex.figEffect it.figs) := by
    intro s it code ex hload hr
    rw [(pyRunCode_success s it code true ex hload hr).1]
    simp
  refine ⟨fun s it code ex hload hr => ⟨hscript s it code ex hload hr,
      hinter s it code ex hload hr⟩, ?_, ?_⟩
  · intro s it code1 code2 ex1 ex2 hload hplots hr1 hr2 hn1 hn2
    have h1 := (pyRunCode_success s it code1 false ex1 hload hr1).1
    have hload1 : (pyRunCode true s it code1 false ex1).1.isLoading = false := by
      rw [h1]; exact hload
    have h2 := hscript (pyRunCode true s it code1 false ex1).1
      (pyRunCode true s it code1 false ex1).2 code2 ex2 hload1 hr2
    rw [h2, h1]
    constructor
    · simp [hplots, mkPlotObjects_length, hn1, hn2]
    · simp only [hplots]
      rw [List.map_append, List.map_append]
      simp [mkPlotObjects_map_dataUrl]
  · intro s it code ex hload hr hn
    rw [hinter s it code ex hload hr, mkPlotObjects_length, hn]

/-- C2 amended witness: one concrete interactive redraw yields exactly one
plot record. -/
theorem c2_plot_capture_amended_witness :
    (pyRunCode true c1State c1It "plt.plot(xs, ys)" true c2Exec).1.plots.length = 1 :=
  c2_plot_capture_amended.2.2 c1State c1It "plt.plot(xs, ys)" c2Exec rfl rfl rfl

/-- C3: from a non-navigating state, for every command history and starting
buffer, `k` "older" steps (the first snapshotting the unsaved buffer into
the draft slot, the cursor clamping at the oldest entry) followed by `k`
"newer" steps restore exactly the pre-navigation buffer content, reset the
cursor to "none" (`-1`) and leave the history unchanged. -/
theorem c3_history_roundtrip (s : NavState) (h : s.historyIndex = -1) (k : Nat) :
    (navDown^[k] (navUp^[k] s)).inputValue = s.inputValue ∧
    (navDown^[k] (navUp^[k] s)).historyIndex = -1 ∧
    (navDown^[k] (navUp^[k] s)).commandHistory = s.commandHistory := by
  rcases Nat.eq_zero_or_pos k with hk | hk
  · subst hk
    exact ⟨rfl, h, rfl⟩
  rcases Nat.eq_zero_or_pos s.commandHistory.length with hlen | hlen
  · have hup : navUp^[k] s = s := Function.iterate_fixed (navUp_empty s hlen) k
    have hdown : navDown^[k] s = s := Function.iterate_fixed (navDown_none s h) k
    rw [hup, hdown]
    exact ⟨rfl, h, rfl⟩
  · have hne : s.commandHistory.length ≠ 0 := by omega
    obtain ⟨hh, ht, hi, hv⟩ := navUp_phase s h hne k hk
    set u := navUp^[k] s with hu
    set i := min (k - 1) (s.commandHistory.length - 1) with hidef
    have hiInt : u.historyIndex = (i : Int) := by
      rw [hi, hidef]; omega
    have hile : i + 1 ≤ k := by omega
    obtain ⟨m, hm⟩ := Nat.exists_eq_add_of_le hile
    have hk' : k = m + (i + 1) := by omega
    have hsplit : navDown^[k] u = navDown^[m] (navDown^[i + 1] u) := by
      rw [hk', Function.iterate_add_apply]
    rw [hsplit, navDown_phase _ _ hiInt]
    have hfix := Function.iterate_fixed
      (navDown_none (⟨u.tempUserCode, u.commandHistory, -1, u.tempUserCode⟩ : NavState) rfl) m
    rw [hfix]
    exact ⟨ht, rfl, hh⟩

/-- C3 witness: a concrete three-entry history, navigated five steps up and
five steps down, restores the concrete draft buffer. -/
theorem c3_history_roundtrip_witness :
    ((⟨"draft", ["new", "mid", "old"], -1, ""⟩ : NavState).historyIndex = -1) ∧
    (navDown^[5] (navUp^[5] (⟨"draft", ["new", "mid", "old"], -1, ""⟩ : NavState))).inputValue
      = "draft" :=
  ⟨rfl, (c3_history_roundtrip ⟨"draft", ["new", "mid", "old"], -1, ""⟩ rfl 5).1⟩

/-- C9: sorting a table column produces a permutation of the stored rows in
which (adjacent-pairwise, as the comparator orders them) number pairs are
ordered numerically following the direction, all other non-null pairs are
ordered by case-insensitive comparison of their string coercions, and rows
whose value in the column is null/undefined are placed after all others
regardless of direction; a header click on the already-ascending column
toggles to descending; and sorting only touches the view's sort
configuration — the stored TableSnapshot is never mutated (the view sorts a
copy). -/
theorem c9_viewer_sorting :
    (∀ (t : TableData) (key : String) (dir : SortDir),
        (sortedData (some t) ⟨some key, dir⟩).Perm t.data) ∧
    (∀ (t : TableData) (key : String) (dir : SortDir),
        List.Pairwise (fun a b => rowGet a key = .jsNull → rowGet b key = .jsNull)
          (sortedData (some t) ⟨some key, dir⟩)) ∧
    (∀ (t : TableData) (key : String) (dir : SortDir),
        List.Chain' (fun a b => ∀ x y : Int, rowGet a key = .jsNum x → rowGet b key = .jsNum y →
            (dir = .ascending → x ≤ y) ∧ (dir = .descending → y ≤ x))
          (sortedData (some t) ⟨some key, dir⟩)) ∧
    (∀ (t : TableData) (key : String) (dir : SortDir),
        List.Chain' (fun a b => rowGet a key ≠ .jsNull → rowGet b key ≠ .jsNull →
            (¬ isNumVal (rowGet a key) ∨ ¬ isNumVal (rowGet b key)) →
            ((dir = .ascending →
                (jsString (rowGet a key)).toLower ≤ (jsString (rowGet b key)).toLower) ∧
             (dir = .descending →
                (jsString (rowGet b key)).toLower ≤ (jsString (rowGet a key)).toLower)))
          (sortedData (some t) ⟨some key, dir⟩)) ∧
    (∀ (v : ViewerState) (key : String), (viewerRequestSort v key).tableData = v.tableData) ∧
    (∀ (v : ViewerState) (key : String),
        v.sortConfig = ⟨some key, .ascending⟩ →
          (viewerRequestSort v key).sortConfig = ⟨some key, .descending⟩) := by
  have hchain : ∀ (t : TableData) (key : String) (dir : SortDir),
      List.Chain' (fun a b => rowLe key dir a b ∨ ¬ rowLe key dir b a)
        (sortedData (some t) ⟨some key, dir⟩) := by
    intro t key dir
    show List.Chain' _ (List.insertionSort (rowLe key dir) t.data)
    exact chain'_insertionSort (rowLe key dir) _ (fun x y hxy => Or.inl hxy)
      (fun x y hxy => Or.inr hxy) t.data
  refine ⟨?_, ?_, ?_, ?_, fun v key => rfl, ?_⟩
  · intro t key dir
    exact List.perm_insertionSort (rowLe key dir) t.data
  · intro t key dir
    haveI : IsTrans Row (fun a b => rowGet a key = .jsNull → rowGet b key = .jsNull) :=
      ⟨fun a b c h1 h2 ha => h2 (h1 ha)⟩
    refine List.chain'_iff_pairwise.mp ?_
    refine (hchain t key dir).imp ?_
    intro a b hP
    exact cmpVal_null_last dir (rowGet a key) (rowGet b key) hP
  · intro t key dir
    refine (hchain t key dir).imp ?_
    intro a b hP x y hx hy
    exact cmpVal_num_order dir (rowGet a key) (rowGet b key) hP x y hx hy
  · intro t key dir
    refine (hchain t key dir).imp ?_
    intro a b hP ha hb hn
    exact cmpVal_str_order dir (rowGet a key) (rowGet b key) hP ha hb hn
  · intro v key hcfg
    simp [viewerRequestSort, requestSort, hcfg]

/-- C9 witness: clicking the already-ascending column `a` toggles its sort
direction to descending. -/
theorem c9_viewer_sorting_witness :
    (viewerRequestSort ⟨none, ⟨some "a", .ascending⟩⟩ "a").sortConfig
      = ⟨some "a", .descending⟩ :=
  c9_viewer_sorting.2.2.2.2.2 ⟨none, ⟨some "a", .ascending⟩⟩ "a" rfl

/-- C5 witness: `viewObject("bad name!")` on the Python flavor leaves the
(absent) table snapshot unchanged and sends nothing to the interpreter. -/
theorem c5_view_object_rejects_safely_witness :
    (pyViewObjectByName true c1State "bad name!" none).1.tableData = none ∧
    (pyViewObjectByName true c1State "bad name!" none).2 = [] :=
  ⟨(c5_view_object_rejects_safely.1 true c1State "bad name!" none (by decide)).2.1,
   (c5_view_object_rejects_safely.1 true c1State "bad name!" none (by decide)).2.2⟩

/-- C6 amended witness: a concrete Python 2×2 frame view yields the
`["#", "a", "b"]` snapshot with index values 0 and 1 in source order. -/
theorem c6_table_snapshot_columns_amended_witness :
    (pyViewObjectByName true c1State "df"
        (some ⟨["a", "b"], [.jsNum 0, .jsNum 1],
          [[.jsNum 10, .jsNum 20], [.jsNum 30, .jsNum 40]]⟩)).1.tableData
      = some ⟨"df",
          [[("#", .jsNum 0), ("a", .jsNum 10), ("b", .jsNum 20)],
           [("#", .jsNum 1), ("a", .jsNum 30), ("b", .jsNum 40)]],
          ["#", "a", "b"]⟩ :=
  c6_table_snapshot_columns_amended.1 c1State "df" (.jsNum 0) (.jsNum 1)
    (.jsNum 10) (.jsNum 20) (.jsNum 30) (.jsNum 40) (by decide)

/-- C7 amended witness: a short repr is stored untouched. -/
theorem c7_repr_truncation_amended_witness : pyTruncateRepr "abc" = "abc" :=
  c7_repr_truncation_amended.2.1 "abc" (by decide)

/-- C8 witness: a concrete run does not shorten the (empty) console, and a
concrete clear empties it. -/
theorem c8_console_monotone_witness :
    c1State.consoleOutput.length
        ≤ (pyStep true (.run "x" false c2Exec) (c1State, c1It)).1.consoleOutput.length ∧
    (pyStep true .clearConsole (c1State, c1It)).1.consoleOutput = [] :=
  ⟨c8_console_monotone.1 true (.run "x" false c2Exec) c1State c1It
      (fun hcontra => PyOp.noConfusion hcontra),
   c8_console_monotone.2.1 true c1State c1It⟩

/-- C10 witness: a binding whose repr raises is included with its
placeholder. -/
theorem c10_python_env_filter_witness :
    ("x", (⟨"Weird", "<Weird>", false, false⟩ : PyEnvObject))
      ∈ buildPyEnv [] [("x", ⟨"Weird", none, false, false⟩)] :=
  c10_python_env_filter.2 [] [("x", ⟨"Weird", none, false, false⟩)] "x"
    ⟨"Weird", none, false, false⟩ (List.mem_singleton.mpr rfl) rfl (by decide) (by decide)
